import Mathlib

/-!
Shallow embedding of the Agent repository (prompt guardrails, conversation
summarization, Gemini retry wrapper, MongoDB-backed conversation memory) and
proofs about the behaviour its specification describes.

Sources embedded:
* `src/utils/prompt_manager.py` — `PromptConfig`, `GuardrailsFilter`,
  `ConversationSummarizer`, `PromptManager.build_prompt`;
* `src/enhanced_agent.py` — `EnhancedAgent._generate_response`;
* `src/utils/memory_manager.py` — `MongoMemoryManager`.
-/

set_option maxRecDepth 4096

namespace Agent

/-! ### String scanning primitives

These model the `re.search` calls and Python `in` substring tests.  Strings are
scanned as `List Char`.  The regular expressions in the source are tiny: every
pattern is an alternation of words (letters, possibly one `.` wildcard, one
space), wrapped in `\b ... \b`, except the spam pattern `(.)\1{20,}`.
-/

/-- Word characters for the regex `\b` boundary: the ASCII view of `\w`,
`[A-Za-z0-9_]`. -/
def isWordChar (c : Char) : Bool := c.isAlphanum || c = '_'

/-- One token of a pattern: a literal character, or `.` (any char except a
newline, as in Python `re` without `DOTALL`). -/
inductive RTok where
  | lit (c : Char)
  | any
deriving DecidableEq

/-- Does the token list match a prefix of `s`?  Returns the remainder after the
match when it does. -/
def matchHere : List RTok → List Char → Option (List Char)
  | [], s => some s
  | _ :: _, [] => none
  | RTok.lit c :: ts, x :: xs => if x = c then matchHere ts xs else none
  | RTok.any :: ts, x :: xs => if x = '\n' then none else matchHere ts xs

/-- Does `toks` match at the current position of `s`, with `\b` satisfied on
both sides?  `prev` is the character immediately before the position. -/
def boundaryMatch (toks : List RTok) (prev : Option Char) (s : List Char) : Bool :=
  match matchHere toks s with
  | some rest =>
      (match prev with
       | none => true
       | some c => !isWordChar c) &&
      (match rest with
       | [] => true
       | c :: _ => !isWordChar c)
  | none => false

/-- Scan of `re.search(r'\b(toks)\b', s)` from a position whose preceding
character is `prev`. -/
def searchWordAux (toks : List RTok) (prev : Option Char) : List Char → Bool
  | [] => boundaryMatch toks prev []
  | c :: cs => boundaryMatch toks prev (c :: cs) || searchWordAux toks (some c) cs

/-- `re.search(r'\b(toks)\b', s) is not None`. -/
def searchWord (toks : List RTok) (s : List Char) : Bool :=
  searchWordAux toks none s

/-- Plain substring containment: Python `pat in s`. -/
def containsSub (pat : List Char) : List Char → Bool
  | [] => pat.isEmpty
  | c :: cs => pat.isPrefixOf (c :: cs) || containsSub pat cs

/-- Does the list start with at least `n` copies of `c`? -/
def startsWithRun (c : Char) : Nat → List Char → Bool
  | 0, _ => true
  | _ + 1, [] => false
  | n + 1, x :: xs => x = c && startsWithRun c n xs

/-- `re.search(r'(.)\1{20,}', s)`: 21 or more consecutive copies of one
character (the leading `.` does not match a newline). -/
def hasLongRun : List Char → Bool
  | [] => false
  | c :: cs => (decide (c ≠ '\n') && startsWithRun c 20 cs) || hasLongRun cs

/-- Python `s.lower()` (ASCII view, which covers every pattern in the source). -/
def lowerStr (s : List Char) : List Char := s.map Char.toLower

/-- Python `s.strip()`: remove leading and trailing whitespace. -/
def stripChars (s : List Char) : List Char :=
  ((s.dropWhile Char.isWhitespace).reverse.dropWhile Char.isWhitespace).reverse

/-- A word pattern consisting only of literal characters. -/
def lits (s : String) : List RTok := s.toList.map RTok.lit

/-! ### `PromptConfig` and `GuardrailsFilter` (`src/utils/prompt_manager.py`) -/

/-- `PromptConfig`.  The `safety_filters` dict built by `__post_init__` always
holds exactly four keys, flattened here into four booleans.  The float fields
`temperature`/`top_p` are not embedded (no claim depends on them); the string
`temperature_render` stands for the decimal rendering of `temperature` used
when the master prompt is formatted. -/
structure PromptConfig where
  max_history : Nat
  summary_threshold : Nat
  max_tokens : Nat
  profanity : Bool
  harmful_content : Bool
  spam_detection : Bool
  off_topic : Bool
  allowed_topics : List String
  temperature_render : String
deriving DecidableEq

/-- The `allowed_topics` default installed by `PromptConfig.__post_init__`. -/
def allowedTopicsDefault : List String :=
  ["general", "programming", "analysis", "help", "technology", "science",
   "automotive", "gaming", "entertainment", "sports", "business", "education",
   "travel", "food", "health", "lifestyle", "music", "movies", "books", "art",
   "history", "culture"]

/-- `PromptConfig()` with every default applied (`max_history=10`,
`summary_threshold=8`, `max_tokens=4096`, and the `__post_init__` safety
filters: profanity off, harmful content on, spam detection off, off-topic
off). -/
def defaultPromptConfig : PromptConfig :=
  { max_history := 10
    summary_threshold := 8
    max_tokens := 4096
    profanity := false
    harmful_content := true
    spam_detection := false
    off_topic := false
    allowed_topics := allowedTopicsDefault
    temperature_render := "0.7" }

/-- The alternation branches of `GuardrailsFilter.harmful_patterns`, one
word-boundary pattern per branch (the `.` of `self.harm` and `hurt.yourself`
is a wildcard token). -/
def harmful_patterns : List (List RTok) :=
  [lits "hack", lits "crack", lits "pirate", lits "illegal", lits "drugs",
   lits "violence",
   lits "suicide", lits "self" ++ [RTok.any] ++ lits "harm",
   lits "hurt" ++ [RTok.any] ++ lits "yourself",
   lits "bomb", lits "weapon", lits "attack", lits "terror",
   lits "murder", lits "kill", lits "death", lits "poison"]

/-- The promotional branches of `GuardrailsFilter.spam_patterns` (the other
spam pattern is the repeated-character run, `hasLongRun`). -/
def spam_phrases : List (List RTok) :=
  [lits "buy now", lits "click here", lits "free money"]

/-- `GuardrailsFilter.profanity_patterns` branches. -/
def profanity_patterns : List (List RTok) :=
  [lits "fuck", lits "shit", lits "damn", lits "hell", lits "ass", lits "bitch"]

/-- `GuardrailsFilter.off_topic_patterns` branches. -/
def off_topic_patterns : List (List RTok) :=
  [lits "weather today", lits "sports scores", lits "celebrities",
   lits "gossip", lits "astrology"]

/-- Some harmful pattern matches `user_input.lower()`. -/
def harmfulMatch (s : List Char) : Bool :=
  harmful_patterns.any fun p => searchWord p (lowerStr s)

/-- Some spam pattern matches: the repeated-run pattern on the raw input, or a
promotional phrase with `re.IGNORECASE` (modelled by lower-casing the input;
the phrases are already lower-case). -/
def spamMatch (s : List Char) : Bool :=
  hasLongRun s || spam_phrases.any fun p => searchWord p (lowerStr s)

/-- Some profanity pattern matches `user_input.lower()`. -/
def profanityMatch (s : List Char) : Bool :=
  profanity_patterns.any fun p => searchWord p (lowerStr s)

/-- Some off-topic pattern matches `user_input.lower()`. -/
def offTopicMatch (s : List Char) : Bool :=
  off_topic_patterns.any fun p => searchWord p (lowerStr s)

/-- The result dict of `GuardrailsFilter.validate_input`. -/
structure ValidationResult where
  is_valid : Bool
  reason : String
  filtered_content : String
  warnings : List String
deriving DecidableEq

def safetyReason : String :=
  "Content violates safety guidelines. Please ask something else."

def spamReason : String :=
  "Message appears to be spam or promotional content."

def tooShortReason : String :=
  "Message is too short. Please provide more details."

def tooLongReason : String :=
  "Message is too long. Please break it into smaller parts."

def profanityWarning : String := "Please keep the conversation professional"

def offTopicWarning : String := "This question might be outside my expertise area"

/-- `GuardrailsFilter.validate_input`.  The checks run in source order:
harmful content, spam, profanity (warning only), off-topic (warning only),
minimum trimmed length, maximum length. -/
def validate_input (cfg : PromptConfig) (user_input : String) : ValidationResult :=
  let s := user_input.toList
  if cfg.harmful_content && harmfulMatch s then
    ⟨false, safetyReason, user_input, []⟩
  else if cfg.spam_detection && spamMatch s then
    ⟨false, spamReason, user_input, []⟩
  else
    let w1 := if cfg.profanity && profanityMatch s then [profanityWarning] else []
    let w2 := if cfg.off_topic && offTopicMatch s then [offTopicWarning] else []
    let warnings := w1 ++ w2
    if (stripChars s).length < 3 then
      ⟨false, tooShortReason, user_input, warnings⟩
    else if s.length > 5000 then
      ⟨false, tooLongReason, user_input, warnings⟩
    else
      ⟨true, "", user_input, warnings⟩

/-! ### `ConversationSummarizer` -/

/-- A `{"role": ..., "content": ...}` entry of the conversation window. -/
structure Msg where
  role : String
  content : String
deriving DecidableEq

/-- Python `content[:80] + "..." if len(content) > 80 else content`. -/
def truncate80 (content : String) : String :=
  if content.length > 80 then (content.take 80) ++ "..." else content

/-- The topic line extracted from one user message in
`ConversationSummarizer.summarize_conversation`. -/
def userTopic (content : String) : String :=
  let lc := lowerStr content.toList
  if containsSub "how".toList lc then "asked about procedures"
  else if containsSub "what".toList lc then "asked for definitions"
  else if containsSub "why".toList lc then "asked for explanations"
  else "discussed " ++ String.mk (lowerStr (truncate80 content).toList)

/-- `ConversationSummarizer.summarize_conversation(history, keep_recent)`.
`history[:-keep_recent]` is empty when `keep_recent = 0` (Python slice
`[:-0]`), otherwise it drops the last `keep_recent` entries. -/
def summarize_conversation (history : List Msg) (keep_recent : Nat) : String :=
  if history.length ≤ keep_recent then ""
  else
    let to_summarize :=
      if keep_recent = 0 then [] else history.take (history.length - keep_recent)
    let user_topics :=
      (to_summarize.filter fun m => m.role = "user").map fun m => userTopic m.content
    if !user_topics.isEmpty then
      let summary := "Earlier in our conversation, the user " ++
        String.intercalate ", " (user_topics.take 3)
      let summary :=
        if user_topics.length > 3 then
          summary ++ " and " ++ toString (user_topics.length - 3) ++ " other topics"
        else summary
      summary ++ "."
    else "Earlier conversation covered various topics."

/-! ### `PromptManager` -/

/-- The mutable parts of a `PromptManager` instance. -/
structure PMState where
  config : PromptConfig
  conversation_history : List Msg
  conversation_summary : String

/-- Python `content[:300] + "... [truncated]" if len(content) > 300 else content`. -/
def truncate300 (content : String) : String :=
  if content.length > 300 then (content.take 300) ++ "... [truncated]" else content

/-- `PromptManager._format_conversation_context`. -/
def formatConversationContext (st : PMState) : String :=
  let p1 :=
    if st.conversation_summary ≠ "" then
      ["Previous context: " ++ st.conversation_summary]
    else []
  let p2 :=
    if !st.conversation_history.isEmpty then
      let recent := st.conversation_history.drop (st.conversation_history.length - 6)
      "Recent conversation:" ::
        recent.enum.map fun p =>
          toString (p.1 + 1) ++ ". " ++
            (if p.2.role = "user" then "User" else "Assistant") ++ ": " ++
            truncate300 p.2.content
    else ["This is the start of a new conversation."]
  String.intercalate "\n" (p1 ++ p2)

/-- The result of `MASTER_PROMPT.format(**prompt_vars)`: the template with each
placeholder substituted (literal `\x7b\x7b` / `\x7d\x7d` of the template render
as single braces, written with escapes here). -/
def masterPromptFilled (format_type : String) (max_tokens : Nat)
    (temperature conversation_context session_id user_preferences domain
     allowed_topics user_input current_time : String) : String :=
  String.intercalate "\n"
    ["You are Nebula AI, an intelligent and helpful assistant with the following capabilities:",
     "",
     "## Core Identity & Behavior",
     "- You are knowledgeable, professional, and friendly",
     "- You provide accurate, detailed, and practical responses",
     "- You maintain context across our conversation",
     "- You follow ethical guidelines and safety standards",
     "- You handle complex topics with clarity and precision",
     "",
     "## Response Guidelines",
     "- Format: " ++ format_type,
     "- Maximum response length: " ++ toString max_tokens ++ " tokens",
     "- Creativity level: " ++ temperature,
     "- Domain focus: " ++ domain,
     "- Current time: " ++ current_time,
     "",
     "## Conversation Context",
     conversation_context,
     "",
     "## User Information",
     "- Session ID: " ++ session_id,
     "- User preferences: " ++ user_preferences,
     "- Primary domain: " ++ domain,
     "",
     "## Content Guidelines",
     "- Allowed topics: " ++ allowed_topics,
     "- Keep responses appropriate and helpful",
     "- If asked about restricted topics, politely decline and suggest alternatives",
     "- Provide sources when making factual claims",
     "- Admit when you\x27re uncertain about information",
     "",
     "## Output Structure for JSON responses",
     "When responding in JSON format, use this structure:",
     "\x7b",
     "    \"response\": \x7b",
     "        \"content\": \"Your detailed response here\",",
     "        \"format\": \"" ++ format_type ++ "\",",
     "        \"confidence\": 0.9,",
     "        \"topic_category\": \"detected_category\"",
     "    \x7d,",
     "    \"metadata\": \x7b",
     "        \"sources\": [\"source1\", \"source2\"],",
     "        \"keywords\": [\"key1\", \"key2\"],",
     "        \"requires_followup\": false,",
     "        \"complexity_level\": \"beginner|intermediate|advanced\"",
     "    \x7d,",
     "    \"follow_up\": \x7b",
     "        \"suggestions\": [\"suggestion1\", \"suggestion2\"],",
     "        \"clarifications_needed\": false,",
     "        \"related_topics\": [\"topic1\", \"topic2\"]",
     "    \x7d",
     "\x7d",
     "",
     "## Current User Query",
     user_input,
     "",
     "Please provide a helpful, accurate, and appropriately formatted response:"]

/-- Python `len(final_prompt.split())`: words separated by whitespace runs. -/
def wordCount (s : String) : Nat :=
  ((s.split Char.isWhitespace).filter fun w => w ≠ "").length

/-- The result dict of `PromptManager.build_prompt` (union of the error-path
and success-path keys; keys absent on a path hold their default). -/
structure BuildResult where
  error : Bool
  message : String
  prompt : Option String
  suggestions : List String
  warnings : List String
  estimated_tokens : ℚ

/-- The fixed suggestion list of the validation-error result. -/
def errorSuggestions : List String :=
  ["Please rephrase your question",
   "Try asking about a different topic",
   "Make sure your message follows our guidelines"]

/-- `PromptManager.build_prompt`.  `session_id`, `user_preferences` (the
`json.dumps` rendering) and `domain` come from the `context` dict and
`current_time` from the clock; all four are passed in.  Returns the result
dict together with the updated manager state (the summary recomputation and
window truncation mutate `self`). -/
def build_prompt (st : PMState) (user_input format_type : String)
    (session_id user_preferences domain current_time : String) :
    BuildResult × PMState :=
  let iv := validate_input st.config user_input
  if !iv.is_valid then
    ({ error := true, message := iv.reason, prompt := none,
       suggestions := errorSuggestions, warnings := [], estimated_tokens := 0 },
     st)
  else
    let st1 :=
      if st.conversation_history.length > st.config.summary_threshold then
        { st with
          conversation_summary :=
            summarize_conversation st.conversation_history st.config.max_history,
          conversation_history :=
            st.conversation_history.drop
              (st.conversation_history.length - st.config.max_history) }
      else st
    let conversation_context := formatConversationContext st1
    let allowed :=
      if st1.config.allowed_topics.isEmpty then ["general"]
      else st1.config.allowed_topics
    let final_prompt :=
      masterPromptFilled format_type st1.config.max_tokens
        st1.config.temperature_render conversation_context session_id
        user_preferences domain (String.intercalate ", " allowed) user_input
        current_time
    ({ error := false, message := "", prompt := some final_prompt,
       suggestions := [], warnings := iv.warnings,
       estimated_tokens := (wordCount final_prompt : ℚ) * (13 / 10) },
     st1)

/-! ### `EnhancedAgent._generate_response` (`src/enhanced_agent.py`)

The loop `for attempt in range(max_retries)` is embedded with a fuel argument
`fuel = max_retries - attempt`; `model i` is the outcome of the i-th
`self.model.generate_content(prompt)` call and `jitter i` the value drawn by
`random.uniform(0, 1)` after a quota failure of attempt `i`.
-/

/-- Outcome of one `generate_content` call: the response text, or the message
of the raised exception. -/
inductive GenOutcome where
  | success (text : String)
  | failure (msg : String)
deriving DecidableEq

/-- `"429" in error_msg or "quota" in error_msg.lower() or "rate" in
error_msg.lower()`. -/
def isQuotaError (msg : String) : Bool :=
  containsSub "429".toList msg.toList ||
  containsSub "quota".toList (lowerStr msg.toList) ||
  containsSub "rate".toList (lowerStr msg.toList)

/-- The fixed message returned when the final attempt still fails with a quota
error. -/
def highDemandMessage : String :=
  "I\x27m currently experiencing high demand. Please try again in a few moments. This helps me provide the best service to everyone."

/-- The message of the comment-marked unreachable return after the loop. -/
def unexpectedErrorMessage : String :=
  "I encountered an unexpected error. Please try again."

/-- What one `_generate_response` call did: the returned text (`.ok`) or the
raised exception message (`.error`), the list of back-off sleeps performed (in
seconds), and how many `generate_content` attempts were made. -/
structure GenTrace where
  result : Except String String
  sleeps : List ℚ
  attempts : Nat

def max_retries : Nat := 3

def base_delay : ℚ := 2

/-- The loop body from attempt `attempt` with `fuel` iterations left
(`fuel = max_retries - attempt`); `attempt < max_retries - 1` is `0 < fuel`
here.  A quota failure with attempts remaining sleeps
`base_delay * 2 ^ attempt + jitter attempt` and retries; a quota failure on
the last attempt returns `highDemandMessage`; any other failure raises
`"Gemini API error: " ++ msg` at once. -/
def generateFrom (model : Nat → GenOutcome) (jitter : Nat → ℚ)
    (attempt : Nat) (sleeps : List ℚ) : Nat → GenTrace
  | 0 => ⟨.ok unexpectedErrorMessage, sleeps, attempt⟩
  | fuel + 1 =>
    match model attempt with
    | .success t => ⟨.ok t, sleeps, attempt + 1⟩
    | .failure msg =>
      if isQuotaError msg then
        if 0 < fuel then
          generateFrom model jitter (attempt + 1)
            (sleeps ++ [base_delay * 2 ^ attempt + jitter attempt]) fuel
        else ⟨.ok highDemandMessage, sleeps, attempt + 1⟩
      else ⟨.error ("Gemini API error: " ++ msg), sleeps, attempt + 1⟩

/-- `EnhancedAgent._generate_response`. -/
def generate_response (model : Nat → GenOutcome) (jitter : Nat → ℚ) : GenTrace :=
  generateFrom model jitter 0 [] max_retries

/-! ### `MongoMemoryManager` (`src/utils/memory_manager.py`)

State is the pair of MongoDB collections plus the in-memory fallback
containers.  The fallback attributes `_memory_conversations` /
`_memory_sessions` exist only on instances whose `__init__` hit the connection
failure branch, i.e. exactly when `connected = false`; on a connected instance
any reference to them raises `AttributeError`.  Exceptions of the MongoDB
driver are the only non-determinism and are injected as boolean parameters;
`datetime.utcnow()` is one `now : Nat` per call and `uuid.uuid4()` is the
`tid` parameter.
-/

/-- The fields of `ConversationTurn.to_dict()` that the claims touch
(`metadata` is carried along unchanged by the source and omitted here). -/
structure Turn where
  id : String
  session_id : String
  user_id : String
  user_message : String
  ai_response : String
  timestamp : Nat
deriving DecidableEq

/-- A session document.  `created_at` is `none` when the document was written
without that key (possible only through the `$setOnInsert`-less dict). -/
structure SessionRec where
  session_id : String
  user_id : String
  last_activity : Nat
  created_at : Option Nat
deriving DecidableEq

/-- A `MongoMemoryManager` instance. -/
structure Store where
  connected : Bool
  mongoConvs : List Turn
  mongoSessions : List SessionRec
  memConvs : List Turn
  memSessions : List (String × SessionRec)
deriving DecidableEq

/-- `__init__` when the ping raises `ConnectionFailure` /
`ServerSelectionTimeoutError`: `client = None` and fresh empty fallback
containers. -/
def initDisconnected : Store := ⟨false, [], [], [], []⟩

/-- `__init__` when the connection test succeeds: the collections hold whatever
the database already held, and no fallback containers exist. -/
def initConnected (convs : List Turn) (sess : List SessionRec) : Store :=
  ⟨true, convs, sess, [], []⟩

/-- `sessions.update_one({"session_id": sid}, {"$set": session_data,
"$setOnInsert": {"created_at": now}}, upsert=True)`: rewrite the mutable
fields of the (unique-indexed) matching document keeping its `created_at`, or
insert a fresh document with `created_at = now`. -/
def upsertMongoSession : List SessionRec → String → String → Nat → List SessionRec
  | [], sid, uid, now => [⟨sid, uid, now, some now⟩]
  | r :: rs, sid, uid, now =>
    if r.session_id = sid then
      { r with user_id := uid, last_activity := now } :: rs
    else r :: upsertMongoSession rs sid uid now

/-- Python dict assignment `self._memory_sessions[session_id] = v`: replace in
place, or append when the key is new. -/
def setMemSession : List (String × SessionRec) → String → SessionRec →
    List (String × SessionRec)
  | [], sid, v => [(sid, v)]
  | p :: ps, sid, v =>
    if p.1 = sid then (sid, v) :: ps else p :: setMemSession ps sid v

/-- Dict lookup `self._memory_sessions[session_id]`. -/
def getMemSession (m : List (String × SessionRec)) (sid : String) :
    Option SessionRec :=
  (m.find? fun p => p.1 = sid).map Prod.snd

/-- What one `save_conversation_turn` call did. -/
structure SaveResult where
  store : Store
  raised : Bool
  turn_id : String
deriving DecidableEq

/-- `MongoMemoryManager.save_conversation_turn`.  `insertOk` / `upsertOk` say
whether `insert_one` / `update_one` succeed (relevant only when connected).
On a connected instance a driver failure lands in the `except` block, whose
first statement touches the non-existent `_memory_conversations` attribute and
raises `AttributeError` — so nothing is written by the handler (and when
`insert_one` itself failed, the local `session_data` is unbound as well).  On
a disconnected instance the fallback stores the turn and overwrites the whole
session record. -/
def save_conversation_turn (st : Store) (insertOk upsertOk : Bool)
    (sid uid umsg aresp tid : String) (now : Nat) : SaveResult :=
  let turn : Turn := ⟨tid, sid, uid, umsg, aresp, now⟩
  if st.connected then
    if insertOk then
      let st1 := { st with mongoConvs := st.mongoConvs ++ [turn] }
      if upsertOk then
        ⟨{ st1 with mongoSessions := upsertMongoSession st1.mongoSessions sid uid now },
         false, tid⟩
      else
        ⟨st1, true, tid⟩
    else
      ⟨st, true, tid⟩
  else
    ⟨{ st with
        memConvs := st.memConvs ++ [turn],
        memSessions := setMemSession st.memSessions sid ⟨sid, uid, now, some now⟩ },
     false, tid⟩

/-- Stable descending insertion by timestamp: place `t` before the first
strictly older element, after any element with the same timestamp. -/
def insertByTsDesc (t : Turn) : List Turn → List Turn
  | [] => [t]
  | u :: us =>
    if u.timestamp < t.timestamp then t :: u :: us else u :: insertByTsDesc t us

/-- `sorted(convs, key=timestamp, reverse=True)`: stable descending sort (ISO
timestamp strings compare chronologically; the MongoDB `sort` is modelled the
same way). -/
def sortByTsDesc (l : List Turn) : List Turn :=
  l.foldl (fun acc t => insertByTsDesc t acc) []

/-- The expansion of turn documents into role/content pairs performed at the
end of `get_conversation_history` (`reversed(conversations)` then a user pair
and an assistant pair per turn). -/
def histPairs (conversations : List Turn) : List Msg :=
  (conversations.reverse.map fun c =>
    [Msg.mk "user" c.user_message, Msg.mk "assistant" c.ai_response]).flatten

/-- `MongoMemoryManager.get_conversation_history`.  `queryOk` says whether the
MongoDB query succeeds; a failing query on a connected instance falls into the
`except` block, which touches the non-existent `_memory_conversations` and
raises `AttributeError`. -/
def get_conversation_history (st : Store) (queryOk : Bool) (sid : String)
    (limit offset : Nat) : Except String (List Msg) :=
  if st.connected then
    if queryOk then
      .ok (histPairs
        (((sortByTsDesc (st.mongoConvs.filter fun c => c.session_id = sid)).drop
            offset).take limit))
    else .error "AttributeError"
  else
    .ok (histPairs
      (((sortByTsDesc (st.memConvs.filter fun c => c.session_id = sid)).drop
          offset).take limit))

/-- The fields of the `get_database_stats` dict that the claims touch (the
size figures and error text are omitted; the error dict carries no totals, so
they are 0 there). -/
structure DBStats where
  connected : Bool
  total_conversations : Nat
  total_sessions : Nat
  storage_type : String
deriving DecidableEq

/-- `MongoMemoryManager.get_database_stats`.  `statsOk` says whether the
MongoDB stats queries succeed when connected. -/
def get_database_stats (st : Store) (statsOk : Bool) : DBStats :=
  if st.connected then
    if statsOk then
      ⟨true, st.mongoConvs.length, st.mongoSessions.length, "mongodb"⟩
    else
      ⟨false, 0, 0, "mongodb_error"⟩
  else
    ⟨false, st.memConvs.length, st.memSessions.length, "memory"⟩

/-! ### Helper lemmas -/

/-- Exhaustive description of one `_generate_response` call: the seven leaf
behaviours of the 3-attempt retry loop. -/
lemma generate_response_cases (model : Nat → GenOutcome) (jitter : Nat → ℚ) :
    (∃ t, model 0 = .success t ∧
      generate_response model jitter = ⟨.ok t, [], 1⟩) ∨
    (∃ m, model 0 = .failure m ∧ isQuotaError m = false ∧
      generate_response model jitter =
        ⟨.error ("Gemini API error: " ++ m), [], 1⟩) ∨
    (∃ m t, model 0 = .failure m ∧ isQuotaError m = true ∧
      model 1 = .success t ∧
      generate_response model jitter =
        ⟨.ok t, [base_delay * 2 ^ 0 + jitter 0], 2⟩) ∨
    (∃ m m1, model 0 = .failure m ∧ isQuotaError m = true ∧
      model 1 = .failure m1 ∧ isQuotaError m1 = false ∧
      generate_response model jitter =
        ⟨.error ("Gemini API error: " ++ m1),
         [base_delay * 2 ^ 0 + jitter 0], 2⟩) ∨
    (∃ m m1 t, model 0 = .failure m ∧ isQuotaError m = true ∧
      model 1 = .failure m1 ∧ isQuotaError m1 = true ∧
      model 2 = .success t ∧
      generate_response model jitter =
        ⟨.ok t,
         [base_delay * 2 ^ 0 + jitter 0, base_delay * 2 ^ 1 + jitter 1], 3⟩) ∨
    (∃ m m1 m2, model 0 = .failure m ∧ isQuotaError m = true ∧
      model 1 = .failure m1 ∧ isQuotaError m1 = true ∧
      model 2 = .failure m2 ∧ isQuotaError m2 = false ∧
      generate_response model jitter =
        ⟨.error ("Gemini API error: " ++ m2),
         [base_delay * 2 ^ 0 + jitter 0, base_delay * 2 ^ 1 + jitter 1], 3⟩) ∨
    (∃ m m1 m2, model 0 = .failure m ∧ isQuotaError m = true ∧
      model 1 = .failure m1 ∧ isQuotaError m1 = true ∧
      model 2 = .failure m2 ∧ isQuotaError m2 = true ∧
      generate_response model jitter =
        ⟨.ok highDemandMessage,
         [base_delay * 2 ^ 0 + jitter 0, base_delay * 2 ^ 1 + jitter 1], 3⟩) := by
  have hmr : max_retries = 3 := rfl
  rcases h0 : model 0 with t | m
  · exact Or.inl ⟨t, rfl, by simp [generate_response, generateFrom, hmr, h0]⟩
  · cases hq0 : isQuotaError m
    · exact Or.inr (Or.inl ⟨m, rfl, hq0,
        by simp [generate_response, generateFrom, hmr, h0, hq0]⟩)
    · rcases h1 : model 1 with t | m1
      · refine Or.inr (Or.inr (Or.inl ⟨m, t, rfl, hq0, rfl, ?_⟩))
        simp [generate_response, generateFrom, hmr, h0, hq0, h1]
      · cases hq1 : isQuotaError m1
        · refine Or.inr (Or.inr (Or.inr (Or.inl ⟨m, m1, rfl, hq0, rfl, hq1, ?_⟩)))
          simp [generate_response, generateFrom, hmr, h0, hq0, h1, hq1]
        · rcases h2 : model 2 with t | m2
          · refine Or.inr (Or.inr (Or.inr (Or.inr (Or.inl
              ⟨m, m1, t, rfl, hq0, rfl, hq1, rfl, ?_⟩))))
            simp [generate_response, generateFrom, hmr, h0, hq0, h1, hq1, h2]
          · cases hq2 : isQuotaError m2
            · refine Or.inr (Or.inr (Or.inr (Or.inr (Or.inr (Or.inl
                ⟨m, m1, m2, rfl, hq0, rfl, hq1, rfl, hq2, ?_⟩)))))
              simp [generate_response, generateFrom, hmr, h0, hq0, h1, hq1, h2,
                hq2]
            · refine Or.inr (Or.inr (Or.inr (Or.inr (Or.inr (Or.inr
                ⟨m, m1, m2, rfl, hq0, rfl, hq1, rfl, hq2, ?_⟩)))))
              simp [generate_response, generateFrom, hmr, h0, hq0, h1, hq1, h2,
                hq2]

/-! ### Claims C3 and C4: the retry wrapper -/

/-- C3: every `_generate_response` call makes at most 3 attempts; the i-th
back-off sleep lasts `base_delay * 2 ^ i + jitter i` seconds with
`base_delay = 2` and `jitter i` drawn from `[0, 1]`, so whenever two sleeps
happen the second is at least as long as the first; and an attempt that
succeeds after quota failures returns the successful text. -/
theorem C3_retry_policy (model : Nat → GenOutcome) (jitter : Nat → ℚ)
    (hj : ∀ i, 0 ≤ jitter i ∧ jitter i ≤ 1) :
    (generate_response model jitter).attempts ≤ 3 ∧
    (∀ i, i < (generate_response model jitter).sleeps.length →
      (generate_response model jitter).sleeps.getD i 0 =
        base_delay * 2 ^ i + jitter i) ∧
    (2 ≤ (generate_response model jitter).sleeps.length →
      (generate_response model jitter).sleeps.getD 0 0 ≤
        (generate_response model jitter).sleeps.getD 1 0) ∧
    (∀ m0 m1 t, model 0 = .failure m0 → isQuotaError m0 = true →
      model 1 = .failure m1 → isQuotaError m1 = true →
      model 2 = .success t →
      (generate_response model jitter).result = .ok t) := by
  have hj0 := hj 0
  have hj1 := hj 1
  obtain hcases := generate_response_cases model jitter
  refine ⟨?_, ?_, ?_, ?_⟩
  · rcases hcases with
        ⟨t, h0, hT⟩ | ⟨m, h0, hq0, hT⟩ | ⟨m, t, h0, hq0, h1, hT⟩ |
        ⟨m, m1, h0, hq0, h1, hq1, hT⟩ | ⟨m, m1, t, h0, hq0, h1, hq1, h2, hT⟩ |
        ⟨m, m1, m2, h0, hq0, h1, hq1, h2, hq2, hT⟩ |
        ⟨m, m1, m2, h0, hq0, h1, hq1, h2, hq2, hT⟩ <;>
      rw [hT] <;> norm_num
  · rcases hcases with
        ⟨t, h0, hT⟩ | ⟨m, h0, hq0, hT⟩ | ⟨m, t, h0, hq0, h1, hT⟩ |
        ⟨m, m1, h0, hq0, h1, hq1, hT⟩ | ⟨m, m1, t, h0, hq0, h1, hq1, h2, hT⟩ |
        ⟨m, m1, m2, h0, hq0, h1, hq1, h2, hq2, hT⟩ |
        ⟨m, m1, m2, h0, hq0, h1, hq1, h2, hq2, hT⟩ <;>
      rw [hT] <;> intro i hi <;>
      simp only [List.length_nil, List.length_cons] at hi <;>
      interval_cases i <;>
      simp [List.getD]
  · rcases hcases with
        ⟨t, h0, hT⟩ | ⟨m, h0, hq0, hT⟩ | ⟨m, t, h0, hq0, h1, hT⟩ |
        ⟨m, m1, h0, hq0, h1, hq1, hT⟩ | ⟨m, m1, t, h0, hq0, h1, hq1, h2, hT⟩ |
        ⟨m, m1, m2, h0, hq0, h1, hq1, h2, hq2, hT⟩ |
        ⟨m, m1, m2, h0, hq0, h1, hq1, h2, hq2, hT⟩ <;>
      rw [hT] <;> intro hlen <;>
      simp only [List.length_nil, List.length_cons] at hlen <;>
      try omega
    all_goals simp only [List.getD_cons_zero, List.getD_cons_succ]
    all_goals
      have hb : base_delay = 2 := rfl
      rw [hb]
      nlinarith [hj0.1, hj0.2, hj1.1, hj1.2]
  · intro m0 m1 t hm0 hqm0 hm1 hqm1 hm2
    rcases hcases with
        ⟨t', h0, hT⟩ | ⟨m, h0, hq0, hT⟩ | ⟨m, t', h0, hq0, h1, hT⟩ |
        ⟨m, m1', h0, hq0, h1, hq1, hT⟩ |
        ⟨m, m1', t', h0, hq0, h1, hq1, h2, hT⟩ |
        ⟨m, m1', m2, h0, hq0, h1, hq1, h2, hq2, hT⟩ |
        ⟨m, m1', m2, h0, hq0, h1, hq1, h2, hq2, hT⟩ <;>
      rw [hT] <;> simp_all

/-- Witness model for C3: two quota failures, then success. -/
def witModel : Nat → GenOutcome
  | 0 => .failure "429 Too Many Requests"
  | 1 => .failure "You exceeded your current quota"
  | _ => .success "All good"

/-- Witness jitter draw. -/
def witJitter : Nat → ℚ := fun _ => 1 / 2

theorem C3_retry_policy_witness :
    (generate_response witModel witJitter).attempts ≤ 3 ∧
    (2 ≤ (generate_response witModel witJitter).sleeps.length →
      (generate_response witModel witJitter).sleeps.getD 0 0 ≤
        (generate_response witModel witJitter).sleeps.getD 1 0) ∧
    (generate_response witModel witJitter).result = .ok "All good" := by
  have h := C3_retry_policy witModel witJitter
    (fun i => ⟨by norm_num [witJitter], by norm_num [witJitter]⟩)
  exact ⟨h.1, h.2.2.1,
    h.2.2.2 "429 Too Many Requests" "You exceeded your current quota"
      "All good" rfl (by decide) rfl (by decide) rfl⟩

/-- C4: the wrapper raises exactly when some attempt fails with a non-quota
error — immediately (no further attempts) and carrying the underlying message
prefixed with `Gemini API error:` — while quota errors never propagate: three
quota failures return the fixed high-demand message. -/
theorem C4_error_propagation (model : Nat → GenOutcome) (jitter : Nat → ℚ) :
    (∀ k, k < 3 →
      (∀ i, i < k → ∃ mi, model i = .failure mi ∧ isQuotaError mi = true) →
      ∀ m, model k = .failure m → isQuotaError m = false →
        (generate_response model jitter).result =
          .error ("Gemini API error: " ++ m) ∧
        (generate_response model jitter).attempts = k + 1) ∧
    ((∀ i, i < 3 → ∃ mi, model i = .failure mi ∧ isQuotaError mi = true) →
      (generate_response model jitter).result = .ok highDemandMessage) ∧
    (∀ e, (generate_response model jitter).result = .error e →
      ∃ k m, k < 3 ∧ model k = .failure m ∧ isQuotaError m = false ∧
        e = "Gemini API error: " ++ m) := by
  obtain hcases := generate_response_cases model jitter
  refine ⟨?_, ?_, ?_⟩
  · intro k hk hprev m' hm hq
    rcases hcases with
        ⟨t, h0, hT⟩ | ⟨m, h0, hq0, hT⟩ | ⟨m, t, h0, hq0, h1, hT⟩ |
        ⟨m, m1, h0, hq0, h1, hq1, hT⟩ | ⟨m, m1, t, h0, hq0, h1, hq1, h2, hT⟩ |
        ⟨m, m1, m2, h0, hq0, h1, hq1, h2, hq2, hT⟩ |
        ⟨m, m1, m2, h0, hq0, h1, hq1, h2, hq2, hT⟩ <;>
      rw [hT] <;>
      interval_cases k <;>
      first
        | (simp_all; done)
        | (rcases hprev 0 (by omega) with ⟨mi, hmi, hqi⟩; simp_all; done)
        | (rcases hprev 1 (by omega) with ⟨mi, hmi, hqi⟩; simp_all; done)
  · intro hall
    rcases hcases with
        ⟨t, h0, hT⟩ | ⟨m, h0, hq0, hT⟩ | ⟨m, t, h0, hq0, h1, hT⟩ |
        ⟨m, m1, h0, hq0, h1, hq1, hT⟩ | ⟨m, m1, t, h0, hq0, h1, hq1, h2, hT⟩ |
        ⟨m, m1, m2, h0, hq0, h1, hq1, h2, hq2, hT⟩ |
        ⟨m, m1, m2, h0, hq0, h1, hq1, h2, hq2, hT⟩ <;>
      rw [hT] <;>
      first
        | rfl
        | (rcases hall 0 (by omega) with ⟨mi, hmi, hqi⟩; simp_all; done)
        | (rcases hall 1 (by omega) with ⟨mi, hmi, hqi⟩; simp_all; done)
        | (rcases hall 2 (by omega) with ⟨mi, hmi, hqi⟩; simp_all; done)
  · intro e he
    rcases hcases with
        ⟨t, h0, hT⟩ | ⟨m, h0, hq0, hT⟩ | ⟨m, t, h0, hq0, h1, hT⟩ |
        ⟨m, m1, h0, hq0, h1, hq1, hT⟩ | ⟨m, m1, t, h0, hq0, h1, hq1, h2, hT⟩ |
        ⟨m, m1, m2, h0, hq0, h1, hq1, h2, hq2, hT⟩ |
        ⟨m, m1, m2, h0, hq0, h1, hq1, h2, hq2, hT⟩ <;>
      rw [hT] at he <;>
      simp only [Except.error.injEq] at he <;>
      try exact absurd he (by simp)
    · exact ⟨0, m, by omega, h0, hq0, he.symm⟩
    · exact ⟨1, m1, by omega, h1, hq1, he.symm⟩
    · exact ⟨2, m2, by omega, h2, hq2, he.symm⟩

/-- Witness model for C4: a non-quota failure on the first attempt. -/
def witModelBad : Nat → GenOutcome
  | 0 => .failure "invalid request"
  | _ => .success "unreached"

/-- Witness model for C4: every attempt fails with a quota error. -/
def witModelAllQuota : Nat → GenOutcome := fun _ => .failure "429"

theorem C4_error_propagation_witness :
    (generate_response witModelBad witJitter).result =
      .error ("Gemini API error: " ++ "invalid request") ∧
    (generate_response witModelBad witJitter).attempts = 1 ∧
    (generate_response witModelAllQuota witJitter).result =
      .ok highDemandMessage := by
  have h1 := (C4_error_propagation witModelBad witJitter).1 0 (by omega)
    (fun i hi => absurd hi (by omega)) "invalid request" rfl (by decide)
  have h2 := (C4_error_propagation witModelAllQuota witJitter).2.1
    (fun i _ => ⟨"429", rfl, by decide⟩)
  exact ⟨h1.1, h1.2, h2⟩

/-! ### Claims C1, C7, C8, C9: the memory manager -/

/-- `save_conversation_turn` never changes which storage tier the instance
uses. -/
lemma save_preserves_connected (st : Store) (iOk uOk : Bool)
    (sid uid umsg aresp tid : String) (now : Nat) :
    (save_conversation_turn st iOk uOk sid uid umsg aresp tid now).store.connected
      = st.connected := by
  obtain ⟨c, mc, ms, fc, fs⟩ := st
  simp only [save_conversation_turn]
  split
  · split
    · split <;> rfl
    · rfl
  · rfl

/-- The first session document matching `sid` after a MongoDB upsert: the old
document with `user_id`/`last_activity` rewritten (and `created_at` kept), or
a fresh document with `created_at = now`. -/
lemma find?_upsertMongoSession (l : List SessionRec) (sid uid : String) (now : Nat) :
    (upsertMongoSession l sid uid now).find? (fun x => x.session_id = sid) =
      some (match l.find? (fun x => x.session_id = sid) with
            | some r => { r with user_id := uid, last_activity := now }
            | none => ⟨sid, uid, now, some now⟩) := by
  induction l with
  | nil => simp [upsertMongoSession]
  | cons r rs ih =>
    by_cases hr : r.session_id = sid
    · simp [upsertMongoSession, hr, List.find?_cons]
    · simp [upsertMongoSession, hr, List.find?_cons, ih]

/-- Dict lookup after dict assignment at the same key. -/
lemma getMemSession_setMemSession (m : List (String × SessionRec))
    (sid : String) (v : SessionRec) :
    getMemSession (setMemSession m sid v) sid = some v := by
  induction m with
  | nil => simp [setMemSession, getMemSession]
  | cons p ps ih =>
    by_cases hp : p.1 = sid
    · simp [setMemSession, getMemSession, hp]
    · simpa [setMemSession, getMemSession, hp] using ih

/-- C1 (code bug): on a connected instance whose `update_one` fails after a
successful `insert_one`, `save_conversation_turn` raises — the `except`
handler touches `_memory_conversations`, which exists only on instances built
without a connection — leaving the turn inserted durably but no session
upsert in either tier; and when `insert_one` itself fails the call raises
with nothing written at all.  Neither outcome is the exactly-one-turn-record
plus exactly-one-session-upsert completion the claim requires. -/
theorem C1_partial_failure_raises :
    save_conversation_turn (initConnected [] []) true false
        "s" "u" "hello" "hi" "t1" 7 =
      ⟨⟨true, [⟨"t1", "s", "u", "hello", "hi", 7⟩], [], [], []⟩, true, "t1"⟩ ∧
    save_conversation_turn (initConnected [] []) false true
        "s" "u" "hello" "hi" "t1" 7 =
      ⟨⟨true, [], [], [], []⟩, true, "t1"⟩ := by
  exact ⟨rfl, rfl⟩

/-- C7: an instance constructed against an unreachable backend reports
`connected = false` in its stats, keeps doing so (no operation flips the
tier), and a `save_turn` / `get_history` round trip on it succeeds from the
in-process fallback without raising. -/
theorem C7_disconnected_fallback (iOk uOk qOk statsOk : Bool)
    (sid uid umsg aresp tid : String) (now : Nat) :
    (get_database_stats initDisconnected statsOk).connected = false ∧
    (∀ (st : Store) (iOk2 uOk2 : Bool) (sid2 uid2 umsg2 aresp2 tid2 : String)
        (now2 : Nat),
      (save_conversation_turn st iOk2 uOk2 sid2 uid2 umsg2 aresp2 tid2
          now2).store.connected = st.connected) ∧
    (save_conversation_turn initDisconnected iOk uOk sid uid umsg aresp tid
        now).raised = false ∧
    (get_database_stats
        (save_conversation_turn initDisconnected iOk uOk sid uid umsg aresp tid
          now).store statsOk).connected = false ∧
    get_conversation_history
        (save_conversation_turn initDisconnected iOk uOk sid uid umsg aresp tid
          now).store qOk sid 20 0
      = .ok [⟨"user", umsg⟩, ⟨"assistant", aresp⟩] := by
  refine ⟨rfl, save_preserves_connected, rfl, rfl, ?_⟩
  simp [save_conversation_turn, get_conversation_history, initDisconnected,
    sortByTsDesc, insertByTsDesc, histPairs]

/-- C8 (amended): in the durable tier a session's `created_at` is set by the
first turn write and preserved — with `last_activity` rewritten — by every
later write; in the in-process fallback tier every turn write overwrites the
whole session record, so `created_at` and `last_activity` are both set to the
write's time. -/
theorem C8_created_at_last_activity (st : Store)
    (sid uid umsg aresp tid : String) (now : Nat) :
    (st.connected = true →
      st.mongoSessions.find? (fun x => x.session_id = sid) = none →
      (save_conversation_turn st true true sid uid umsg aresp tid
          now).store.mongoSessions.find? (fun x => x.session_id = sid)
        = some ⟨sid, uid, now, some now⟩) ∧
    (st.connected = true →
      ∀ r, st.mongoSessions.find? (fun x => x.session_id = sid) = some r →
      (save_conversation_turn st true true sid uid umsg aresp tid
          now).store.mongoSessions.find? (fun x => x.session_id = sid)
        = some { r with user_id := uid, last_activity := now }) ∧
    (st.connected = false →
      getMemSession
          (save_conversation_turn st true true sid uid umsg aresp tid
            now).store.memSessions sid
        = some ⟨sid, uid, now, some now⟩) := by
  obtain ⟨c, mc, ms, fc, fs⟩ := st
  refine ⟨?_, ?_, ?_⟩
  · intro hc hnone
    simp only at hc
    subst hc
    simp only [save_conversation_turn, if_true]
    rw [find?_upsertMongoSession]
    simp only at hnone
    rw [hnone]
  · intro hc r hr
    simp only at hc
    subst hc
    simp only [save_conversation_turn, if_true]
    rw [find?_upsertMongoSession]
    simp only at hr
    rw [hr]
  · intro hc
    simp only at hc
    subst hc
    simp only [save_conversation_turn, if_false]
    exact getMemSession_setMemSession _ _ _

/-- Witness for C8 (amended): a first durable write at time 3 creates the
session with `created_at = 3`; a second durable write at time 9 keeps
`created_at = 3` and moves `last_activity` to 9; a fallback write at time 5
stores `created_at = last_activity = 5`. -/
theorem C8_created_at_last_activity_witness :
    (save_conversation_turn (initConnected [] []) true true
        "s" "u" "m1" "a1" "t1" 3).store.mongoSessions.find?
        (fun x => x.session_id = "s") = some ⟨"s", "u", 3, some 3⟩ ∧
    (save_conversation_turn
        (save_conversation_turn (initConnected [] []) true true
          "s" "u" "m1" "a1" "t1" 3).store true true
        "s" "u" "m2" "a2" "t2" 9).store.mongoSessions.find?
        (fun x => x.session_id = "s") = some ⟨"s", "u", 9, some 3⟩ ∧
    getMemSession
        (save_conversation_turn initDisconnected true true
          "s" "u" "m1" "a1" "t1" 5).store.memSessions "s"
      = some ⟨"s", "u", 5, some 5⟩ := by
  refine ⟨?_, ?_, ?_⟩
  · exact (C8_created_at_last_activity (initConnected [] [])
      "s" "u" "m1" "a1" "t1" 3).1 rfl rfl
  · exact (C8_created_at_last_activity _ "s" "u" "m2" "a2" "t2" 9).2.1
      rfl ⟨"s", "u", 3, some 3⟩ (by decide)
  · exact (C8_created_at_last_activity initDisconnected
      "s" "u" "m1" "a1" "t1" 5).2.2 rfl

/-- C8 counterexample: in the fallback tier `created_at` is not preserved —
the first write at time 0 sets it to 0, and a second write at time 5
overwrites it to 5. -/
theorem C8_counterexample :
    (getMemSession
        (save_conversation_turn initDisconnected true true
          "s" "u" "m1" "a1" "t1" 0).store.memSessions "s").map
        SessionRec.created_at = some (some 0) ∧
    (getMemSession
        (save_conversation_turn
          (save_conversation_turn initDisconnected true true
            "s" "u" "m1" "a1" "t1" 0).store true true
          "s" "u" "m2" "a2" "t2" 5).store.memSessions "s").map
        SessionRec.created_at = some (some 5) ∧
    ¬ (getMemSession
        (save_conversation_turn
          (save_conversation_turn initDisconnected true true
            "s" "u" "m1" "a1" "t1" 0).store true true
          "s" "u" "m2" "a2" "t2" 5).store.memSessions "s").map
        SessionRec.created_at = some (some 0) := by
  exact ⟨rfl, rfl, by decide⟩

/-- C9: when a session holds no turn yet, `save_turn` followed by
`get_history(limit=1)` returns exactly the saved turn as a user pair followed
by an assistant pair — in whichever tier the instance uses (the durable
operations are assumed to succeed on a connected instance). -/
theorem C9_save_then_get_history (st : Store) (iOk uOk qOk : Bool)
    (sid uid umsg aresp tid : String) (now : Nat)
    (hmongo : st.mongoConvs.filter (fun c => c.session_id = sid) = [])
    (hmem : st.memConvs.filter (fun c => c.session_id = sid) = [])
    (hok : st.connected = true → iOk = true ∧ uOk = true ∧ qOk = true) :
    get_conversation_history
        (save_conversation_turn st iOk uOk sid uid umsg aresp tid now).store
        qOk sid 1 0
      = .ok [⟨"user", umsg⟩, ⟨"assistant", aresp⟩] := by
  obtain ⟨c, mc, ms, fc, fs⟩ := st
  by_cases hc : c = true
  · subst hc
    obtain ⟨hi, hu, hq⟩ := hok rfl
    subst hi; subst hu; subst hq
    simp only at hmongo
    simp [save_conversation_turn, get_conversation_history,
      List.filter_append, hmongo, sortByTsDesc, insertByTsDesc, histPairs]
  · have hc' : c = false := by
      cases c
      · rfl
      · exact absurd rfl hc
    subst hc'
    simp only at hmem
    simp [save_conversation_turn, get_conversation_history,
      List.filter_append, hmem, sortByTsDesc, insertByTsDesc, histPairs]

/-- Witness for C9 on a fallback-tier instance. -/
theorem C9_save_then_get_history_witness :
    get_conversation_history
        (save_conversation_turn initDisconnected true true
          "s" "u" "hello" "world" "t1" 3).store true "s" 1 0
      = .ok [⟨"user", "hello"⟩, ⟨"assistant", "world"⟩] :=
  C9_save_then_get_history initDisconnected true true true
    "s" "u" "hello" "world" "t1" 3 rfl rfl (fun h => absurd h (by decide))

/-! ### Claims C2, C5, C6, C10: guardrails and prompt building -/

/-- Summarization returns the empty string when the window is no longer than
`keep_recent` (`if len(history) <= keep_recent: return ""`). -/
lemma summarize_conversation_of_le (history : List Msg) (k : Nat)
    (h : history.length ≤ k) : summarize_conversation history k = "" := by
  simp [summarize_conversation, h]

/-- A 5001-character input that matches the harmful pattern `\bkill\b`. -/
def killLong : String :=
  String.mk ('k' :: 'i' :: 'l' :: 'l' :: ' ' :: List.replicate 4996 'a')

/-- `killLong` matches a harmful pattern (the match sits at the head of the
string, so this needs no scan of the 4996-character tail). -/
lemma killLong_harmful : harmfulMatch killLong.toList = true := by
  rw [harmfulMatch, List.any_eq_true]
  exact ⟨lits "kill", by decide, by decide⟩

/-- `killLong` exceeds the 5000-character limit. -/
lemma killLong_long : killLong.toList.length > 5000 := by
  have h : killLong.toList =
      'k' :: 'i' :: 'l' :: 'l' :: ' ' :: List.replicate 4996 'a' := rfl
  rw [h]
  simp only [List.length_cons, List.length_replicate]
  norm_num

/-- What `validate_input` answers on `killLong` under the default
configuration: the harmful-content check fires first. -/
lemma validate_killLong :
    validate_input defaultPromptConfig killLong =
      ⟨false, safetyReason, killLong, []⟩ := by
  have hm : harmfulMatch killLong.data = true := killLong_harmful
  simp [validate_input, defaultPromptConfig, hm]

/-- C2 counterexample: with the default configuration and a window of 9
role/content pairs, a `build_prompt` call on valid input leaves the window at
9 entries but sets the conversation summary to the **empty** string (the
claim expects a non-empty summary): summarization is called with
`keep_recent = max_history = 10` and a 9-entry window has nothing older to
summarize. -/
def hist9 : List Msg := List.replicate 9 ⟨"user", "hello from earlier"⟩

theorem C2_counterexample :
    (validate_input defaultPromptConfig "Hello there friend").is_valid = true ∧
    (build_prompt ⟨defaultPromptConfig, hist9, "old summary"⟩
        "Hello there friend" "markdown" "sess1" "\x7b\x7d" "general"
        "2026-01-01 00:00:00 UTC").2.conversation_history.length = 9 ∧
    (build_prompt ⟨defaultPromptConfig, hist9, "old summary"⟩
        "Hello there friend" "markdown" "sess1" "\x7b\x7d" "general"
        "2026-01-01 00:00:00 UTC").2.conversation_summary = "" := by
  exact ⟨by decide, rfl, rfl⟩

/-- C2 (amended): with `summary_threshold = 8` and `max_history = 10`, a
`build_prompt` call on valid input with a window of 9 role/content pairs
leaves the window at no more than 10 entries (it stays at 9) and sets the
conversation summary to the empty string. -/
theorem C2_window_summary (hist : List Msg)
    (summ input fmt sid prefs domain time : String)
    (hlen : hist.length = 9)
    (hv : (validate_input defaultPromptConfig input).is_valid = true) :
    (build_prompt ⟨defaultPromptConfig, hist, summ⟩ input fmt sid prefs domain
        time).2.conversation_history.length ≤ 10 ∧
    (build_prompt ⟨defaultPromptConfig, hist, summ⟩ input fmt sid prefs domain
        time).2.conversation_summary = "" := by
  have hsum : summarize_conversation hist 10 = "" :=
    summarize_conversation_of_le hist 10 (by omega)
  have hth : defaultPromptConfig.summary_threshold = 8 := rfl
  have hmh : defaultPromptConfig.max_history = 10 := rfl
  constructor <;>
    simp [build_prompt, hv, hlen, hth, hmh, hsum]

theorem C2_window_summary_witness :
    (build_prompt ⟨defaultPromptConfig, hist9, "old summary"⟩
        "Hello there friend" "markdown" "sess1" "\x7b\x7d" "general"
        "2026-01-01 00:00:00 UTC").2.conversation_history.length ≤ 10 ∧
    (build_prompt ⟨defaultPromptConfig, hist9, "old summary"⟩
        "Hello there friend" "markdown" "sess1" "\x7b\x7d" "general"
        "2026-01-01 00:00:00 UTC").2.conversation_summary = "" :=
  C2_window_summary hist9 "old summary" "Hello there friend" "markdown"
    "sess1" "\x7b\x7d" "general" "2026-01-01 00:00:00 UTC" (by decide)
    (by decide)

/-- C5 counterexample: an input longer than 5000 characters that also matches
a harmful pattern is rejected with the safety-guidelines reason, not with a
length reason — refuting the claim that every over-long input gets a length
reason. -/
theorem C5_counterexample :
    killLong.toList.length > 5000 ∧
    (validate_input defaultPromptConfig killLong).is_valid = false ∧
    (validate_input defaultPromptConfig killLong).reason = safetyReason ∧
    (validate_input defaultPromptConfig killLong).reason ≠ tooLongReason := by
  rw [validate_killLong]
  exact ⟨killLong_long, rfl, rfl, by decide⟩

/-- C5 (amended): under the default configuration, an input that does not
match a harmful pattern is rejected with the too-short reason when its
trimmed length is under 3, and with the too-long reason when it is longer
than 5000 characters (and not already caught by the too-short check); any
harmful-matching input is rejected; and whenever validation fails,
`build_prompt` returns an error result with no prompt built. -/
theorem C5_guardrail_blocks (input : String) :
    (harmfulMatch input.toList = false →
      (stripChars input.toList).length < 3 →
      validate_input defaultPromptConfig input =
        ⟨false, tooShortReason, input, []⟩) ∧
    (harmfulMatch input.toList = false →
      3 ≤ (stripChars input.toList).length →
      input.toList.length > 5000 →
      validate_input defaultPromptConfig input =
        ⟨false, tooLongReason, input, []⟩) ∧
    (harmfulMatch input.toList = true →
      (validate_input defaultPromptConfig input).is_valid = false) ∧
    (∀ (st : PMState) (fmt sid prefs domain time : String),
      (validate_input st.config input).is_valid = false →
      (build_prompt st input fmt sid prefs domain time).1.error = true ∧
      (build_prompt st input fmt sid prefs domain time).1.prompt = none) := by
  refine ⟨?_, ?_, ?_, ?_⟩
  · intro hh hshort
    have hh' : harmfulMatch input.data = false := hh
    have hs' : (stripChars input.data).length < 3 := hshort
    simp [validate_input, defaultPromptConfig, hh', hs']
  · intro hh hsl hlong
    have hh' : harmfulMatch input.data = false := hh
    have hs' : ¬ (stripChars input.data).length < 3 := by
      have : 3 ≤ (stripChars input.data).length := hsl
      omega
    have hl' : 5000 < input.length := hlong
    simp [validate_input, defaultPromptConfig, hh', hs', hl']
  · intro hh
    have hh' : harmfulMatch input.data = true := hh
    simp [validate_input, defaultPromptConfig, hh']
  · intro st fmt sid prefs domain time hv
    rw [build_prompt]
    simp [hv]

theorem C5_guardrail_blocks_witness :
    validate_input defaultPromptConfig "hi" =
      ⟨false, tooShortReason, "hi", []⟩ ∧
    (validate_input defaultPromptConfig killLong).is_valid = false ∧
    (build_prompt ⟨defaultPromptConfig, [], ""⟩ "hi" "markdown" "s" "p" "d"
        "t").1.prompt = none := by
  refine ⟨(C5_guardrail_blocks "hi").1 (by decide) (by decide),
    (C5_guardrail_blocks killLong).2.2.1 killLong_harmful, ?_⟩
  have h := ((C5_guardrail_blocks "hi").2.2.2 ⟨defaultPromptConfig, [], ""⟩
    "markdown" "s" "p" "d" "t" ?_).2
  · exact h
  · rw [(C5_guardrail_blocks "hi").1 (by decide) (by decide)]

/-- C6 counterexample: under the **default** configuration spam detection is
disabled (`__post_init__` sets `spam_detection: False`), so an input matching
a promotional spam phrase passes validation — refuting the claim that the
default configuration rejects it. -/
theorem C6_counterexample :
    spamMatch "buy now and click here".toList = true ∧
    (validate_input defaultPromptConfig "buy now and click here").is_valid
      = true := by
  exact ⟨by decide, by decide⟩

/-- C6 (amended): with spam detection enabled (and the input not already
caught by the harmful-content check), every input matching a spam heuristic —
a run of 21+ repeated characters or a promotional phrase — is rejected with
the spam/promotional reason. -/
theorem C6_spam_detection (input : String)
    (hs : spamMatch input.toList = true)
    (hh : harmfulMatch input.toList = false) :
    (validate_input { defaultPromptConfig with spam_detection := true }
        input).is_valid = false ∧
    (validate_input { defaultPromptConfig with spam_detection := true }
        input).reason = spamReason := by
  have hs' : spamMatch input.data = true := hs
  have hh' : harmfulMatch input.data = false := hh
  constructor <;>
    simp [validate_input, defaultPromptConfig, hs', hh']

theorem C6_spam_detection_witness :
    (validate_input { defaultPromptConfig with spam_detection := true }
        "buy now and click here").is_valid = false ∧
    (validate_input { defaultPromptConfig with spam_detection := true }
        "buy now and click here").reason = spamReason :=
  C6_spam_detection "buy now and click here" (by decide) (by decide)

/-- C10: whenever the harmful-content filter is enabled, a harmful-matching
input is rejected with the safety-guidelines reason — the harmful check runs
before the length checks, so this holds even for inputs that also violate a
length limit. -/
theorem C10_harmful_precedence (cfg : PromptConfig) (input : String)
    (hc : cfg.harmful_content = true)
    (hm : harmfulMatch input.toList = true) :
    validate_input cfg input = ⟨false, safetyReason, input, []⟩ := by
  have hm' : harmfulMatch input.data = true := hm
  simp [validate_input, hc, hm']

/-- Witness for C10 at a length-violating input: `killLong` is 5001
characters long, yet the reported reason is the safety one. -/
theorem C10_harmful_precedence_witness :
    killLong.toList.length > 5000 ∧
    validate_input defaultPromptConfig killLong =
      ⟨false, safetyReason, killLong, []⟩ :=
  ⟨killLong_long,
   C10_harmful_precedence defaultPromptConfig killLong rfl killLong_harmful⟩

end Agent
